import Mathlib

/-!
Shallow embedding of the operation lifecycle pipeline of
src/src/chain/tezos/TezosNodeWriter.ts: operation records, reveal
bundling, dual-path forging, signing, preapply validation and
injection, together with theorems checking the natural-language
specification against this embedding.

External collaborators (binary codec, crypto primitives, chain
accessor, node RPC endpoints, language translator) are modelled as
oracle structures whose fields are arbitrary functions, following
section 6 of the specification; the functions of TezosNodeWriter.ts
are translated directly from the source.
-/

/-- Micheline script attached to an origination. The TypeScript source
builds `{ code, storage }` from two parsed JSON objects; JSON values
are modelled by their canonical text. -/
structure ScriptPair where
  code : String
  storage : Option String
  deriving DecidableEq, Repr

/-- Operation record, translated from the loosely-typed TypeScript
operation interfaces: a record with a `kind` tag and kind-specific
fields present or absent. Numeric wire fields (fee, counter, limits,
amount, balance) are decimal strings, as in the source. -/
structure Operation where
  kind : String
  source : String := ""
  fee : String := ""
  counter : String := ""
  gas_limit : String := ""
  storage_limit : String := ""
  public_key : Option String := none
  destination : Option String := none
  amount : Option String := none
  delegate : Option String := none
  balance : Option String := none
  spendable : Option Bool := none
  delegatable : Option Bool := none
  manager_pubkey : Option String := none
  script : Option ScriptPair := none
  parameters : Option String := none
  pkh : Option String := none
  secret : Option String := none
  deriving DecidableEq, Repr

/-- Modelled from the spec: `StoreType` discriminator of a key store,
`{Software, Fundraiser, Hardware}` (the KeyStore type lives outside
src/). -/
inductive StoreType where
  | Software
  | Fundraiser
  | Hardware
  deriving DecidableEq, Repr

/-- Modelled from the spec: key material for one account (the KeyStore
type lives outside src/). -/
structure KeyStore where
  publicKey : String
  privateKey : String
  publicKeyHash : String
  storeType : StoreType
  deriving DecidableEq, Repr

/-- Block head as read from the chain accessor: hash and protocol. -/
structure BlockHead where
  hash : String
  protocol : String
  deriving DecidableEq, Repr

/-- Modelled from the spec: one nested content entry of a preapply
result, `{kind, metadata}` (the response types live outside src/);
`metadata` is modelled as the string the source interpolates into its
error message. -/
structure AlphaOperationContentsAndResult where
  kind : String
  metadata : String
  deriving DecidableEq, Repr

/-- Modelled from the spec: one element of the preapply response
array, `{kind?, id, contents[]}` (the response types live outside
src/). -/
structure AlphaOperationsWithMetadata where
  kind : Option String := none
  id : String := ""
  contents : List AlphaOperationContentsAndResult := []
  deriving DecidableEq, Repr

/-- Signed operation group: raw signed bytes plus the encoded
signature string. Bytes are modelled as lists of naturals below 256. -/
structure SignedOperationGroup where
  bytes : List Nat
  signature : String
  deriving DecidableEq, Repr

/-- Terminal output of the pipeline. -/
structure OperationResult where
  results : AlphaOperationsWithMetadata
  operationGroupID : String
  deriving DecidableEq, Repr

/-- Body element POSTed to the preapply endpoint. -/
structure PreapplyPayload where
  protocol : String
  branch : String
  contents : List Operation
  signature : String
  deriving DecidableEq, Repr

/-- Network requests issued by the pipeline, in order. Forging (local
path) and signing are pure and emit no event. -/
inductive NetEvent where
  | fetchHead
  | preapply (payload : PreapplyPayload)
  | inject (hexPayload : String)
  deriving DecidableEq, Repr

/-- Modelled from the spec: the external binary codec
(TezosMessageUtils.writeBranch, TezosMessageCodec.encodeOperation,
TezosMessageCodec.parseOperationGroup live outside src/). -/
structure Codec where
  writeBranch : String → String
  encodeOperation : Operation → String
  parseOperationGroup : String → List Operation

/-- Modelled from the spec: the external hash/signature primitives and
the hardware signing transport (CryptoUtils, TezosMessageUtils,
LedgerUtils live outside src/). -/
structure CryptoBackend where
  simpleHash : List Nat → Nat → List Nat
  signDetached : List Nat → List Nat → List Nat
  writeKeyWithHint : String → String → List Nat
  readSignatureWithHint : List Nat → String → String
  ledgerSign : String → String → List Nat

/-- Modelled from the spec: the read-only chain accessor
(TezosNodeReader, outside src/), the node RPC endpoints of section 6,
and the JSON parser of the host language. Each network endpoint is a
total function from request to response body. -/
structure NodeOracle where
  blockHead : BlockHead
  counterForAccount : String → Nat
  isManagerKeyRevealedForAccount : String → Bool
  forgeText : String → List Operation → String
  preapplyText : PreapplyPayload → String
  parseJSON : String → Option (List AlphaOperationsWithMetadata)
  injectResponse : String → String

/-- Modelled from the spec: the external Michelson-to-Micheline
language translator (TezosLanguageUtil, outside src/). -/
structure LanguageUtil where
  translateMichelsonToMicheline : String → String

/-- Parameter format selector for contract code and arguments. -/
inductive TezosParameterFormat where
  | Michelson
  | Micheline
  deriving DecidableEq, Repr

namespace TezosConstants

/-- Modelled from the spec: the fixed one-byte operation-group
watermark (TezosConstants lives outside src/); protocol value 0x03. -/
def OperationGroupWatermark : String := "03"

/-- Modelled from the spec: default transaction storage limit
(numeric value not fixed by the spec; no claim depends on it). -/
def DefaultTransactionStorageLimit : Nat := 300

/-- Modelled from the spec: default transaction gas limit
(numeric value not fixed by the spec; no claim depends on it). -/
def DefaultTransactionGasLimit : Nat := 10300

/-- Modelled from the spec: default delegation storage limit
(numeric value not fixed by the spec; no claim depends on it). -/
def DefaultDelegationStorageLimit : Nat := 0

/-- Modelled from the spec: default delegation fee
(numeric value not fixed by the spec; no claim depends on it). -/
def DefaultDelegationFee : Nat := 1258

/-- Modelled from the spec: default key reveal fee
(numeric value not fixed by the spec; no claim depends on it). -/
def DefaultKeyRevealFee : Nat := 1270

end TezosConstants

/-- Value of one hexadecimal digit character, if any. -/
def hexDigitVal (c : Char) : Option Nat :=
  if 48 ≤ c.toNat ∧ c.toNat ≤ 57 then some (c.toNat - 48)
  else if 97 ≤ c.toNat ∧ c.toNat ≤ 102 then some (c.toNat - 97 + 10)
  else if 65 ≤ c.toNat ∧ c.toNat ≤ 70 then some (c.toNat - 65 + 10)
  else none

/-- Hex decoding of a character list, pairwise; decoding stops at the
first incomplete or invalid pair, as Buffer.from(s, hex) does. -/
def hexPairsToBytes : List Char → List Nat
  | c1 :: c2 :: rest =>
    match hexDigitVal c1, hexDigitVal c2 with
    | some hi, some lo => (16 * hi + lo) :: hexPairsToBytes rest
    | _, _ => []
  | _ => []

/-- Hex decoding of a string, as Buffer.from(s, hex). -/
def hexToBytes (s : String) : List Nat := hexPairsToBytes s.data

/-- Lowercase hex digit character for a value below 16. -/
def hexDigitChar (n : Nat) : Char :=
  if n < 10 then Char.ofNat (48 + n) else Char.ofNat (87 + n)

/-- Two-digit lowercase hex rendering of one byte. -/
def byteToHex (b : Nat) : String :=
  String.mk [hexDigitChar (b / 16 % 16), hexDigitChar (b % 16)]

/-- Hex encoding of a byte list, as Buffer.toString(hex). -/
def bytesToHex (bs : List Nat) : String := String.join (bs.map byteToHex)

/-- JavaScript truthiness of a string-or-undefined value: undefined
and the empty string are falsy. -/
def jsTruthyString : Option String → Bool
  | none => false
  | some s => !(s == "")

/-- The single-quote character as a string, used in the preapply parse
error message of the source. -/
def jsSingleQuote : String := String.singleton (Char.ofNat 39)

/-- Translation of TezosNodeWriter.signOperationGroup: watermark the
forged hex, sign (hardware dispatch or hash-then-detached-sign), and
assemble signed bytes plus hint-encoded signature. -/
def signOperationGroup (B : CryptoBackend) (forgedOperation : String)
    (keyStore : KeyStore) (derivationPath : String) : SignedOperationGroup :=
  let watermarkedForgedOperationBytesHex :=
    TezosConstants.OperationGroupWatermark ++ forgedOperation
  let opSignature : List Nat :=
    match keyStore.storeType with
    | StoreType.Hardware =>
        B.ledgerSign derivationPath watermarkedForgedOperationBytesHex
    | _ =>
        let hashedWatermarkedOpBytes :=
          B.simpleHash (hexToBytes watermarkedForgedOperationBytesHex) 32
        let privateKeyBytes := B.writeKeyWithHint keyStore.privateKey "edsk"
        B.signDetached hashedWatermarkedOpBytes privateKeyBytes
  let hexSignature := B.readSignatureWithHint opSignature "edsig"
  let signedOpBytes := hexToBytes forgedOperation ++ opSignature
  { bytes := signedOpBytes, signature := hexSignature }

/-- Translation of TezosNodeWriter.forgeOperations: branch encoding,
then each operation encoding appended in input order. -/
def forgeOperations (C : Codec) (branch : String)
    (operations : List Operation) : String :=
  operations.foldl (fun encoded m => encoded ++ C.encodeOperation m)
    (C.writeBranch branch)

/-- Concatenation of the operation encodings in input order, written
from the words of the spec (section 4.4) for comparison with
forgeOperations. -/
def specForgeConcat (C : Codec) : List Operation → String
  | [] => ""
  | m :: rest => C.encodeOperation m ++ specForgeConcat C rest

/-- The response cleanup of forgeOperationsRemotely: remove newlines,
then remove quote characters (the two regex replaces of the source). -/
def stripForgeResponse (s : String) : String :=
  String.mk (((s.data.filter (fun c => c != Char.ofNat 10)).filter
    (fun c => !(c == Char.ofNat 39 || c == Char.ofNat 34))))

/-- The validate flag loop of forgeOperationsRemotely, translated with
JavaScript for-in semantics: the loop variable ranges over the ARRAY
INDICES of optypes rendered as strings, and each index string is
tested for membership in the kind list. -/
def forInValidate (optypes : List String) : Bool :=
  (List.range optypes.length).any
    (fun i => ["reveal", "transaction", "delegation", "origination"].contains (toString i))

/-- One iteration of the remote-forge comparison loop: compare a
client operation against the decoded operation at the same index
(head of ds); the decoded side is only accessed for the three checked
kinds, and a missing decoded element is the JavaScript TypeError. -/
def validateForgedOperation (c : Operation) (ds : List Operation) : Except String Unit :=
  if c.kind == "transaction" then
    match ds with
    | [] => Except.error "TypeError: serverop is undefined"
    | d :: _ =>
      if d.kind ≠ c.kind ∨ d.fee ≠ c.fee ∨ d.amount ≠ c.amount ∨
          d.destination ≠ c.destination then
        Except.error "Forged transaction failed validation."
      else Except.ok ()
  else if c.kind == "delegation" then
    match ds with
    | [] => Except.error "TypeError: serverop is undefined"
    | d :: _ =>
      if d.kind ≠ c.kind ∨ d.fee ≠ c.fee ∨ d.delegate ≠ c.delegate then
        Except.error "Forged delegation failed validation."
      else Except.ok ()
  else if c.kind == "origination" then
    match ds with
    | [] => Except.error "TypeError: serverop is undefined"
    | d :: _ =>
      if d.kind ≠ c.kind ∨ d.fee ≠ c.fee ∨ d.balance ≠ c.balance ∨
          d.spendable ≠ c.spendable ∨ d.delegatable ≠ c.delegatable ∨
          d.delegate ≠ c.delegate ∨ d.script ≠ none then
        Except.error "Forged origination failed validation."
      else Except.ok ()
  else Except.ok ()

/-- The remote-forge comparison loop over all client operations,
client index i against decoded index i. -/
def validateForged : List Operation → List Operation → Except String Unit
  | [], _ => Except.ok ()
  | c :: cs, ds =>
    match validateForgedOperation c ds with
    | Except.ok _ => validateForged cs ds.tail
    | Except.error e => Except.error e

/-- Translation of TezosNodeWriter.forgeOperationsRemotely: post to
the remote forge endpoint, clean the response, and run the local
cross-validation only when the validate flag loop set it. -/
def forgeOperationsRemotely (O : NodeOracle) (C : Codec)
    (blockHead : BlockHead) (operations : List Operation) : Except String String :=
  let forgedOperation := O.forgeText blockHead.hash operations
  let ops := stripForgeResponse forgedOperation
  let optypes := operations.map (fun o => o.kind)
  let validate := forInValidate optypes
  if validate then
    let decoded := C.parseOperationGroup ops
    match validateForged operations decoded with
    | Except.ok _ => Except.ok ops
    | Except.error e => Except.error e
  else Except.ok ops

/-- Translation of TezosNodeWriter.applyOperation: post the payload to
the preapply endpoint and parse the response text as JSON; on parse
failure, fail with the message of the source, in which the template
interpolation of the payload array of one object renders as the
JavaScript default object string. Returns the network event alongside. -/
def applyOperation (O : NodeOracle) (branch : String) (protocol : String)
    (operations : List Operation) (signedOpGroup : SignedOperationGroup) :
    Except String (List AlphaOperationsWithMetadata) × List NetEvent :=
  let payload : PreapplyPayload :=
    { protocol := protocol, branch := branch, contents := operations,
      signature := signedOpGroup.signature }
  let text := O.preapplyText payload
  (match O.parseJSON text with
   | some json => Except.ok json
   | none => Except.error
      ("Could not parse JSON response from chains/main/blocks/head/helpers/preapply/operation: "
        ++ jsSingleQuote ++ text ++ jsSingleQuote ++ " for [object Object]"),
   [NetEvent.preapply payload])

/-- The set of applied operation kinds accepted by
checkAppliedOperationResults. -/
def validAppliedKinds : List String :=
  ["activate_account", "reveal", "transaction", "origination", "delegation"]

/-- The contents loop of checkAppliedOperationResults: fail at the
first nested entry whose kind is not in the valid set, reporting its
metadata. -/
def checkAppliedOperationContents :
    List AlphaOperationContentsAndResult → Except String Unit
  | [] => Except.ok ()
  | op :: rest =>
    if validAppliedKinds.contains op.kind then
      checkAppliedOperationContents rest
    else Except.error ("Could not apply operation because: " ++ op.metadata)

/-- Translation of TezosNodeWriter.checkAppliedOperationResults:
inspect the zeroth element only; reject a present top-level kind
outside the valid set reporting the id, then check every nested
content kind. Indexing an empty array is the JavaScript TypeError. -/
def checkAppliedOperationResults :
    List AlphaOperationsWithMetadata → Except String Unit
  | [] => Except.error "TypeError: firstAppliedOp is undefined"
  | firstAppliedOp :: _ =>
    match firstAppliedOp.kind with
    | some k =>
      if !(validAppliedKinds.contains k) then
        Except.error ("Could not apply operation because " ++ firstAppliedOp.id)
      else checkAppliedOperationContents firstAppliedOp.contents
    | none => checkAppliedOperationContents firstAppliedOp.contents

/-- Translation of TezosNodeWriter.injectOperation: post the signed
bytes hex-encoded, return the raw text response, with its event. -/
def injectOperation (O : NodeOracle) (signedOpGroup : SignedOperationGroup) :
    String × List NetEvent :=
  let hexPayload := bytesToHex signedOpGroup.bytes
  (O.injectResponse hexPayload, [NetEvent.inject hexPayload])

/-- Translation of TezosNodeWriter.sendOperation: fetch head, forge,
sign, preapply, validate applied results, inject, and return the
zeroth applied result with the verbatim injection response. The
second component is the ordered trace of network requests. -/
def sendOperation (O : NodeOracle) (C : Codec) (B : CryptoBackend)
    (operations : List Operation) (keyStore : KeyStore) (derivationPath : String) :
    Except String OperationResult × List NetEvent :=
  let blockHead := O.blockHead
  let forgedOperationGroup := forgeOperations C blockHead.hash operations
  let signedOpGroup := signOperationGroup B forgedOperationGroup keyStore derivationPath
  let applied := applyOperation O blockHead.hash blockHead.protocol operations signedOpGroup
  match applied.1 with
  | Except.error e => (Except.error e, NetEvent.fetchHead :: applied.2)
  | Except.ok appliedOp =>
    match checkAppliedOperationResults appliedOp with
    | Except.error e => (Except.error e, NetEvent.fetchHead :: applied.2)
    | Except.ok _ =>
      let injected := injectOperation O signedOpGroup
      match appliedOp with
      | firstOp :: _ =>
        (Except.ok { results := firstOp, operationGroupID := injected.1 },
         NetEvent.fetchHead :: applied.2 ++ injected.2)
      | [] =>
        (Except.error "TypeError: firstAppliedOp is undefined",
         NetEvent.fetchHead :: applied.2 ++ injected.2)

/-- The counter renumbering loop of appendRevealOperation: the
operation at loop index receives counter accountOperationIndex + 2 +
index, preserving order and every other field. -/
def renumberFrom (accountOperationIndex : Nat) : Nat → List Operation → List Operation
  | _, [] => []
  | index, operation :: rest =>
    { operation with counter := toString (accountOperationIndex + 2 + index) } ::
      renumberFrom accountOperationIndex (index + 1) rest

/-- Translation of TezosNodeWriter.appendRevealOperation: if the
manager key of the account is not revealed, prepend a reveal
operation at counter accountOperationIndex + 1 and renumber the input
operations; otherwise return the input unchanged. -/
def appendRevealOperation (O : NodeOracle) (keyStore : KeyStore)
    (accountHash : String) (accountOperationIndex : Nat)
    (operations : List Operation) : List Operation :=
  let isKeyRevealed := O.isManagerKeyRevealedForAccount accountHash
  let counter := accountOperationIndex + 1
  if !isKeyRevealed then
    let revealOp : Operation :=
      { kind := "reveal"
        source := accountHash
        fee := "0"
        counter := toString counter
        gas_limit := "10600"
        storage_limit := "0"
        public_key := some keyStore.publicKey }
    revealOp :: renumberFrom accountOperationIndex 0 operations
  else operations

lemma renumberFrom_length (base : Nat) :
    ∀ (k : Nat) (ops : List Operation), (renumberFrom base k ops).length = ops.length := by
  intro k ops
  induction ops generalizing k with
  | nil => rfl
  | cons op rest ih => simp [renumberFrom, ih]

lemma renumberFrom_get? (base : Nat) :
    ∀ (ops : List Operation) (k i : Nat),
      (renumberFrom base k ops).get? i =
        (ops.get? i).map (fun op => { op with counter := toString (base + 2 + (k + i)) }) := by
  intro ops
  induction ops with
  | nil => intro k i; simp [renumberFrom]
  | cons op rest ih =>
    intro k i
    cases i with
    | zero => simp [renumberFrom]
    | succ j =>
      have h := ih (k + 1) j
      have harith : k + 1 + j = k + (j + 1) := by omega
      simpa [renumberFrom, harith] using h

/-- Shared test fixture: block head. -/
def testBlockHead : BlockHead := { hash := "BLtest", protocol := "PsTest" }

/-- Shared test fixture: chain oracle reporting counter 5 and a
revealed manager key for every account. -/
def oracleRevealed : NodeOracle :=
  { blockHead := testBlockHead
    counterForAccount := fun _ => 5
    isManagerKeyRevealedForAccount := fun _ => true
    forgeText := fun _ _ => ""
    preapplyText := fun _ => ""
    parseJSON := fun _ => none
    injectResponse := fun _ => "opid" }

/-- Shared test fixture: like oracleRevealed but with an unrevealed
manager key. -/
def oracleUnrevealed : NodeOracle :=
  { oracleRevealed with isManagerKeyRevealedForAccount := fun _ => false }

/-- Shared test fixture: software key store. -/
def testKeyStore : KeyStore :=
  { publicKey := "edpkPub", privateKey := "edskPriv",
    publicKeyHash := "tz1hash", storeType := StoreType.Software }

/-- Shared test fixture: a transaction operation. -/
def testTx : Operation :=
  { kind := "transaction", source := "tz1hash", fee := "100000",
    counter := "6", gas_limit := "10300", storage_limit := "300",
    amount := some "10000000", destination := some "tz1dest" }

/-- C1: appendRevealOperation with base counter returns the input
unchanged when the manager key is revealed; otherwise it returns a
reveal with fee 0, counter base+1, gas limit 10600, storage limit 0
and the key store public key, followed by the input operations in
order with the operation at index i renumbered to counter base+2+i
and every other field preserved. -/
theorem appendRevealOperation_bundles_reveal (O : NodeOracle) (ks : KeyStore)
    (accountHash : String) (base : Nat) (ops : List Operation) :
    (O.isManagerKeyRevealedForAccount accountHash = true →
      appendRevealOperation O ks accountHash base ops = ops) ∧
    (O.isManagerKeyRevealedForAccount accountHash = false →
      (appendRevealOperation O ks accountHash base ops).length = ops.length + 1 ∧
      (appendRevealOperation O ks accountHash base ops).head? = some
        { kind := "reveal", source := accountHash, fee := "0",
          counter := toString (base + 1), gas_limit := "10600",
          storage_limit := "0", public_key := some ks.publicKey } ∧
      ∀ i : Nat, (appendRevealOperation O ks accountHash base ops).get? (i + 1) =
        (ops.get? i).map (fun op => { op with counter := toString (base + 2 + i) })) := by
  constructor
  · intro h
    simp [appendRevealOperation, h]
  · intro h
    refine ⟨?_, ?_, ?_⟩
    · simp [appendRevealOperation, h, renumberFrom_length]
    · simp [appendRevealOperation, h]
    · intro i
      have hg := renumberFrom_get? base ops 0 i
      simpa [appendRevealOperation, h] using hg

/-- Witness for C1 at a concrete unrevealed account and a singleton
transaction list. -/
theorem appendRevealOperation_bundles_reveal_witness :
    oracleUnrevealed.isManagerKeyRevealedForAccount "tz1hash" = false ∧
    (appendRevealOperation oracleUnrevealed testKeyStore "tz1hash" 5 [testTx]).length = 2 :=
  ⟨rfl,
   ((appendRevealOperation_bundles_reveal oracleUnrevealed testKeyStore "tz1hash" 5 [testTx]).2
     rfl).1⟩

lemma checkAppliedOperationContents_ok_iff :
    ∀ l, checkAppliedOperationContents l = Except.ok () ↔
      ∀ c ∈ l, c.kind ∈ validAppliedKinds := by
  intro l
  induction l with
  | nil => simp [checkAppliedOperationContents]
  | cons op rest ih =>
    by_cases h : op.kind ∈ validAppliedKinds
    · simp [checkAppliedOperationContents, h, ih]
    · simp [checkAppliedOperationContents, h]

lemma checkAppliedOperationContents_error :
    ∀ l, (∃ c ∈ l, c.kind ∉ validAppliedKinds) →
      ∃ c ∈ l, c.kind ∉ validAppliedKinds ∧
        checkAppliedOperationContents l =
          Except.error ("Could not apply operation because: " ++ c.metadata) := by
  intro l
  induction l with
  | nil => intro h; simp at h
  | cons op rest ih =>
    intro h
    by_cases hop : op.kind ∈ validAppliedKinds
    · have hrest : ∃ c ∈ rest, c.kind ∉ validAppliedKinds := by
        rcases h with ⟨c, hc, hcf⟩
        rcases List.mem_cons.mp hc with rfl | hcr
        · exact absurd hop hcf
        · exact ⟨c, hcr, hcf⟩
      rcases ih hrest with ⟨c, hcr, hcf, hres⟩
      refine ⟨c, List.mem_cons_of_mem _ hcr, hcf, ?_⟩
      simpa [checkAppliedOperationContents, hop] using hres
    · exact ⟨op, List.mem_cons_self _ _, hop,
        by simp [checkAppliedOperationContents, hop]⟩

/-- C3: checkAppliedOperationResults inspects only the zeroth element
of the preapply result array: the result does not depend on the rest
of the array; it succeeds exactly when the top-level kind, if present,
is in the valid applied set and every nested content kind is too; a
bad top-level kind is reported through the id of the element, and a
bad nested kind through the metadata of the entry. -/
theorem checkAppliedOperationResults_spec
    (firstAppliedOp : AlphaOperationsWithMetadata)
    (rest rest2 : List AlphaOperationsWithMetadata) :
    checkAppliedOperationResults (firstAppliedOp :: rest) =
      checkAppliedOperationResults (firstAppliedOp :: rest2) ∧
    (checkAppliedOperationResults (firstAppliedOp :: rest) = Except.ok () ↔
      ((∀ k, firstAppliedOp.kind = some k → k ∈ validAppliedKinds) ∧
        ∀ c ∈ firstAppliedOp.contents, c.kind ∈ validAppliedKinds)) ∧
    (∀ k, firstAppliedOp.kind = some k → k ∉ validAppliedKinds →
      checkAppliedOperationResults (firstAppliedOp :: rest) =
        Except.error ("Could not apply operation because " ++ firstAppliedOp.id)) ∧
    ((∀ k, firstAppliedOp.kind = some k → k ∈ validAppliedKinds) →
      (∃ c ∈ firstAppliedOp.contents, c.kind ∉ validAppliedKinds) →
      ∃ c ∈ firstAppliedOp.contents, c.kind ∉ validAppliedKinds ∧
        checkAppliedOperationResults (firstAppliedOp :: rest) =
          Except.error ("Could not apply operation because: " ++ c.metadata)) := by
  refine ⟨rfl, ?_, ?_, ?_⟩
  · cases hk : firstAppliedOp.kind with
    | none =>
      simp [checkAppliedOperationResults, hk, checkAppliedOperationContents_ok_iff]
    | some k =>
      by_cases hv : k ∈ validAppliedKinds
      · simp [checkAppliedOperationResults, hk, hv, checkAppliedOperationContents_ok_iff]
      · simp [checkAppliedOperationResults, hk, hv]
  · intro k hk hv
    simp [checkAppliedOperationResults, hk, hv]
  · intro htop hbad
    rcases checkAppliedOperationContents_error firstAppliedOp.contents hbad with
      ⟨c, hc, hcf, hres⟩
    refine ⟨c, hc, hcf, ?_⟩
    cases hk : firstAppliedOp.kind with
    | none => simpa [checkAppliedOperationResults, hk] using hres
    | some k =>
      have hv := htop k hk
      simpa [checkAppliedOperationResults, hk, hv] using hres

/-- Shared test fixture: a preapply result element whose nested
content carries the kind backtracked. -/
def testBadApplied : AlphaOperationsWithMetadata :=
  { kind := some "transaction", id := "idX",
    contents := [{ kind := "backtracked", metadata := "mdX" }] }

/-- Witness for C3: a first element with a nested backtracked content
entry fails with an applied-result error reporting that entry. -/
theorem checkAppliedOperationResults_spec_witness :
    ∃ c ∈ testBadApplied.contents, c.kind ∉ validAppliedKinds ∧
      checkAppliedOperationResults [testBadApplied] =
        Except.error ("Could not apply operation because: " ++ c.metadata) :=
  (checkAppliedOperationResults_spec testBadApplied [] []).2.2.2
    (by intro k hk; simp [testBadApplied] at hk; subst hk; decide)
    (by decide)

lemma hexToBytes_watermark (f : String) :
    hexToBytes (TezosConstants.OperationGroupWatermark ++ f) = 3 :: hexToBytes f := rfl

/-- C4: signOperationGroup prepends the one-byte watermark exactly
once to form the signing input (the hashed bytes start with the
single watermark byte 0x03 for software stores; the hardware backend
receives the watermarked hex), the signed byte stream is the forged
bytes without the watermark followed by the raw signature bytes, and
the returned signature string is the hint-encoded form of that
signature. -/
theorem signOperationGroup_spec (B : CryptoBackend) (forgedOperation : String)
    (keyStore : KeyStore) (derivationPath : String) :
    ∃ opSignature : List Nat,
      (signOperationGroup B forgedOperation keyStore derivationPath).bytes =
        hexToBytes forgedOperation ++ opSignature ∧
      (signOperationGroup B forgedOperation keyStore derivationPath).signature =
        B.readSignatureWithHint opSignature "edsig" ∧
      hexToBytes (TezosConstants.OperationGroupWatermark ++ forgedOperation) =
        3 :: hexToBytes forgedOperation ∧
      (keyStore.storeType = StoreType.Hardware →
        opSignature = B.ledgerSign derivationPath
          (TezosConstants.OperationGroupWatermark ++ forgedOperation)) ∧
      (keyStore.storeType ≠ StoreType.Hardware →
        opSignature = B.signDetached
          (B.simpleHash (3 :: hexToBytes forgedOperation) 32)
          (B.writeKeyWithHint keyStore.privateKey "edsk")) := by
  obtain ⟨pub, priv, pkh, st⟩ := keyStore
  cases st with
  | Hardware =>
    exact ⟨_, rfl, rfl, hexToBytes_watermark _, fun _ => rfl, fun hne => absurd rfl hne⟩
  | Software =>
    refine ⟨_, rfl, rfl, hexToBytes_watermark _, fun h => by simp at h, fun _ => ?_⟩
    rw [hexToBytes_watermark]
  | Fundraiser =>
    refine ⟨_, rfl, rfl, hexToBytes_watermark _, fun h => by simp at h, fun _ => ?_⟩
    rw [hexToBytes_watermark]

/-- Shared test fixture: crypto backend whose hash is the identity
and whose detached signature returns the hashed input. -/
def testCryptoBackend : CryptoBackend :=
  { simpleHash := fun bs _ => bs
    signDetached := fun h _ => h
    writeKeyWithHint := fun _ _ => []
    readSignatureWithHint := fun bs _ => bytesToHex bs
    ledgerSign := fun _ _ => [7] }

/-- Witness for C4 at a concrete software key store and forged hex. -/
theorem signOperationGroup_spec_witness :
    ∃ opSignature : List Nat,
      (signOperationGroup testCryptoBackend "a1" testKeyStore "").bytes =
        hexToBytes "a1" ++ opSignature ∧
      (signOperationGroup testCryptoBackend "a1" testKeyStore "").signature =
        testCryptoBackend.readSignatureWithHint opSignature "edsig" ∧
      hexToBytes (TezosConstants.OperationGroupWatermark ++ "a1") = 3 :: hexToBytes "a1" ∧
      (testKeyStore.storeType = StoreType.Hardware →
        opSignature = testCryptoBackend.ledgerSign ""
          (TezosConstants.OperationGroupWatermark ++ "a1")) ∧
      (testKeyStore.storeType ≠ StoreType.Hardware →
        opSignature = testCryptoBackend.signDetached
          (testCryptoBackend.simpleHash (3 :: hexToBytes "a1") 32)
          (testCryptoBackend.writeKeyWithHint testKeyStore.privateKey "edsk")) :=
  signOperationGroup_spec testCryptoBackend "a1" testKeyStore ""

lemma forgeOperations_foldl (C : Codec) :
    ∀ (ops : List Operation) (acc : String),
      ops.foldl (fun encoded m => encoded ++ C.encodeOperation m) acc =
        acc ++ specForgeConcat C ops := by
  intro ops
  induction ops with
  | nil => intro acc; simp [specForgeConcat]
  | cons m rest ih =>
    intro acc
    rw [List.foldl_cons, ih (acc ++ C.encodeOperation m), specForgeConcat,
      String.append_assoc]

/-- C6: the trusted local forging path is deterministic, identical
inputs give identical hex output, and the output is the branch
encoding followed by the encodings of the operations in input order;
no oracle for a network endpoint occurs in forgeOperations. -/
theorem forgeOperations_deterministic (C : Codec) (b1 b2 : String)
    (ops1 ops2 : List Operation) (hb : b1 = b2) (hops : ops1 = ops2) :
    forgeOperations C b1 ops1 = forgeOperations C b2 ops2 ∧
    forgeOperations C b1 ops1 = C.writeBranch b1 ++ specForgeConcat C ops1 := by
  subst hb
  subst hops
  exact ⟨rfl, forgeOperations_foldl C ops1 (C.writeBranch b1)⟩

/-- Shared test fixture: a concrete codec. -/
def testCodec : Codec :=
  { writeBranch := fun b => "BR(" ++ b ++ ")"
    encodeOperation := fun o => "OP(" ++ o.kind ++ ")"
    parseOperationGroup := fun _ => [] }

/-- Witness for C6 at a concrete codec, branch and operation list. -/
theorem forgeOperations_deterministic_witness :
    forgeOperations testCodec "BLtest" [testTx] =
      forgeOperations testCodec "BLtest" [testTx] ∧
    forgeOperations testCodec "BLtest" [testTx] =
      testCodec.writeBranch "BLtest" ++ specForgeConcat testCodec [testTx] :=
  forgeOperations_deterministic testCodec "BLtest" "BLtest" [testTx] [testTx] rfl rfl

/-- C5: sendOperation performs exactly fetch-head, preapply, inject as
network requests, in that order, with no retries: the trace is the
two-event prefix when preapply parsing or applied-result validation
fails (so the call fails before injection), and the full three-event
sequence exactly on success; the injection request occurs only when
checkAppliedOperationResults succeeded on the parsed preapply
response; on success the result is the zeroth preapply element
together with the verbatim injection response. -/
theorem sendOperation_pipeline (O : NodeOracle) (C : Codec) (B : CryptoBackend)
    (operations : List Operation) (keyStore : KeyStore) (derivationPath : String)
    (signedOpGroup : SignedOperationGroup) (payload : PreapplyPayload) (injectHex : String)
    (hsg : signedOpGroup =
      signOperationGroup B (forgeOperations C O.blockHead.hash operations) keyStore derivationPath)
    (hpl : payload = { protocol := O.blockHead.protocol, branch := O.blockHead.hash,
                       contents := operations, signature := signedOpGroup.signature })
    (hih : injectHex = bytesToHex signedOpGroup.bytes) :
    ((sendOperation O C B operations keyStore derivationPath).2 =
        [NetEvent.fetchHead, NetEvent.preapply payload] ∨
      (sendOperation O C B operations keyStore derivationPath).2 =
        [NetEvent.fetchHead, NetEvent.preapply payload, NetEvent.inject injectHex]) ∧
    (∀ h : String,
      NetEvent.inject h ∈ (sendOperation O C B operations keyStore derivationPath).2 →
      ∃ appliedOp, O.parseJSON (O.preapplyText payload) = some appliedOp ∧
        checkAppliedOperationResults appliedOp = Except.ok ()) ∧
    (∀ r, (sendOperation O C B operations keyStore derivationPath).1 = Except.ok r →
      (sendOperation O C B operations keyStore derivationPath).2 =
        [NetEvent.fetchHead, NetEvent.preapply payload, NetEvent.inject injectHex] ∧
      r.operationGroupID = O.injectResponse injectHex ∧
      ∃ appliedOp, O.parseJSON (O.preapplyText payload) = some appliedOp ∧
        checkAppliedOperationResults appliedOp = Except.ok () ∧
        appliedOp.head? = some r.results) ∧
    (O.parseJSON (O.preapplyText payload) = none →
      (∀ r, (sendOperation O C B operations keyStore derivationPath).1 ≠ Except.ok r) ∧
      (sendOperation O C B operations keyStore derivationPath).2 =
        [NetEvent.fetchHead, NetEvent.preapply payload]) ∧
    (∀ appliedOp, O.parseJSON (O.preapplyText payload) = some appliedOp →
      checkAppliedOperationResults appliedOp ≠ Except.ok () →
      (∀ r, (sendOperation O C B operations keyStore derivationPath).1 ≠ Except.ok r) ∧
      (sendOperation O C B operations keyStore derivationPath).2 =
        [NetEvent.fetchHead, NetEvent.preapply payload]) := by
  subst hsg
  subst hpl
  subst hih
  set SG := signOperationGroup B (forgeOperations C O.blockHead.hash operations)
    keyStore derivationPath with hSG
  set P : PreapplyPayload := ⟨O.blockHead.protocol, O.blockHead.hash, operations, SG.signature⟩ with hP
  cases hp : O.parseJSON (O.preapplyText P) with
  | none =>
    have hres2 : (sendOperation O C B operations keyStore derivationPath).2 =
        [NetEvent.fetchHead, NetEvent.preapply P] := by
      simp [sendOperation, applyOperation, ← hSG, ← hP, hp]
    have hres1 : ∀ r, (sendOperation O C B operations keyStore derivationPath).1 ≠
        Except.ok r := by
      intro r
      simp [sendOperation, applyOperation, ← hSG, ← hP, hp]
    refine ⟨Or.inl hres2, ?_, ?_, ?_, ?_⟩
    · intro h hmem
      rw [hres2] at hmem
      simp at hmem
    · intro r hr
      exact absurd hr (hres1 r)
    · intro _
      exact ⟨hres1, hres2⟩
    · intro appliedOp hap
      cases hap
  | some appliedOp =>
    cases hc : checkAppliedOperationResults appliedOp with
    | error e =>
      have hres2 : (sendOperation O C B operations keyStore derivationPath).2 =
          [NetEvent.fetchHead, NetEvent.preapply P] := by
        simp [sendOperation, applyOperation, ← hSG, ← hP, hp, hc]
      have hres1 : ∀ r, (sendOperation O C B operations keyStore derivationPath).1 ≠
          Except.ok r := by
        intro r
        simp [sendOperation, applyOperation, ← hSG, ← hP, hp, hc]
      refine ⟨Or.inl hres2, ?_, ?_, ?_, ?_⟩
      · intro h hmem
        rw [hres2] at hmem
        simp at hmem
      · intro r hr
        exact absurd hr (hres1 r)
      · intro hnone
        cases hnone
      · intro ap hap hne
        cases hap
        exact ⟨hres1, hres2⟩
    | ok u =>
      cases u
      cases appliedOp with
      | nil => simp [checkAppliedOperationResults] at hc
      | cons firstOp restOps =>
        have hres : sendOperation O C B operations keyStore derivationPath =
            (Except.ok ⟨firstOp, O.injectResponse (bytesToHex SG.bytes)⟩,
             [NetEvent.fetchHead, NetEvent.preapply P,
              NetEvent.inject (bytesToHex SG.bytes)]) := by
          simp [sendOperation, applyOperation, injectOperation, ← hSG, ← hP, hp, hc]
        refine ⟨Or.inr ?_, ?_, ?_, ?_, ?_⟩
        · rw [hres]
        · intro h _
          exact ⟨firstOp :: restOps, rfl, hc⟩
        · intro r hr
          rw [hres] at hr
          simp at hr
          subst hr
          exact ⟨by rw [hres], rfl, firstOp :: restOps, rfl, hc, rfl⟩
        · intro hnone
          cases hnone
        · intro ap hap hne
          cases hap
          exact absurd hc hne

/-- Shared test fixture: a preapply result element with all kinds in
the valid applied set. -/
def testAppliedOk : AlphaOperationsWithMetadata :=
  { kind := some "transaction", id := "idOk",
    contents := [{ kind := "transaction", metadata := "mdOk" }] }

/-- Shared test fixture: oracle for which the whole pipeline
succeeds. -/
def oracleSuccess : NodeOracle :=
  { blockHead := testBlockHead
    counterForAccount := fun _ => 5
    isManagerKeyRevealedForAccount := fun _ => true
    forgeText := fun _ _ => ""
    preapplyText := fun _ => "jsonOk"
    parseJSON := fun _ => some [testAppliedOk]
    injectResponse := fun _ => "opid" }

/-- Shared test fixture: the signed group of the success scenario. -/
def testSignedOpGroup : SignedOperationGroup :=
  signOperationGroup testCryptoBackend
    (forgeOperations testCodec oracleSuccess.blockHead.hash [testTx]) testKeyStore ""

/-- Shared test fixture: the preapply payload of the success
scenario. -/
def testPayload : PreapplyPayload :=
  ⟨oracleSuccess.blockHead.protocol, oracleSuccess.blockHead.hash, [testTx],
   testSignedOpGroup.signature⟩

/-- Witness for C5 at the concrete success scenario. -/
theorem sendOperation_pipeline_witness :
    (sendOperation oracleSuccess testCodec testCryptoBackend [testTx] testKeyStore "").2 =
      [NetEvent.fetchHead, NetEvent.preapply testPayload] ∨
    (sendOperation oracleSuccess testCodec testCryptoBackend [testTx] testKeyStore "").2 =
      [NetEvent.fetchHead, NetEvent.preapply testPayload,
       NetEvent.inject (bytesToHex testSignedOpGroup.bytes)] :=
  (sendOperation_pipeline oracleSuccess testCodec testCryptoBackend [testTx] testKeyStore ""
    testSignedOpGroup testPayload (bytesToHex testSignedOpGroup.bytes) rfl rfl rfl).1

/-- Translation of the transaction record built by
TezosNodeWriter.sendTransactionOperation. -/
def sendTransactionOperationTx (O : NodeOracle) (keyStore : KeyStore)
    (toAddress : String) (amount fee : Nat) : Operation :=
  let counter := O.counterForAccount keyStore.publicKeyHash + 1
  { kind := "transaction"
    destination := some toAddress
    amount := some (toString amount)
    storage_limit := toString TezosConstants.DefaultTransactionStorageLimit
    gas_limit := toString TezosConstants.DefaultTransactionGasLimit
    counter := toString counter
    fee := toString fee
    source := keyStore.publicKeyHash }

/-- The operation list assembled by sendTransactionOperation before
submission: the transaction, bundled through appendRevealOperation at
base counter minus one. -/
def sendTransactionOperationOps (O : NodeOracle) (keyStore : KeyStore)
    (toAddress : String) (amount fee : Nat) : List Operation :=
  let counter := O.counterForAccount keyStore.publicKeyHash + 1
  appendRevealOperation O keyStore keyStore.publicKeyHash (counter - 1)
    [sendTransactionOperationTx O keyStore toAddress amount fee]

/-- Translation of TezosNodeWriter.sendTransactionOperation. -/
def sendTransactionOperation (O : NodeOracle) (C : Codec) (B : CryptoBackend)
    (keyStore : KeyStore) (toAddress : String) (amount fee : Nat) (derivationPath : String) :
    Except String OperationResult × List NetEvent :=
  sendOperation O C B (sendTransactionOperationOps O keyStore toAddress amount fee)
    keyStore derivationPath

/-- Translation of the delegation record built by
TezosNodeWriter.sendDelegationOperation: both limits are rendered from
TezosConstants.DefaultDelegationStorageLimit. -/
def sendDelegationOperationDelegation (O : NodeOracle) (delegator : String)
    (delegate : Option String) (fee : Nat) : Operation :=
  let counter := O.counterForAccount delegator + 1
  { kind := "delegation"
    source := delegator
    fee := toString fee
    counter := toString counter
    storage_limit := toString TezosConstants.DefaultDelegationStorageLimit
    gas_limit := toString TezosConstants.DefaultDelegationStorageLimit
    delegate := delegate }

/-- The operation list assembled by sendDelegationOperation before
submission. -/
def sendDelegationOperationOps (O : NodeOracle) (keyStore : KeyStore)
    (delegator : String) (delegate : Option String) (fee : Nat) : List Operation :=
  let counter := O.counterForAccount delegator + 1
  appendRevealOperation O keyStore delegator (counter - 1)
    [sendDelegationOperationDelegation O delegator delegate fee]

/-- Translation of TezosNodeWriter.sendDelegationOperation. -/
def sendDelegationOperation (O : NodeOracle) (C : Codec) (B : CryptoBackend)
    (keyStore : KeyStore) (delegator : String) (delegate : Option String)
    (fee : Nat) (derivationPath : String) :
    Except String OperationResult × List NetEvent :=
  sendOperation O C B (sendDelegationOperationOps O keyStore delegator delegate fee)
    keyStore derivationPath

/-- Translation of the origination record built by
TezosNodeWriter.sendOriginationOperation: delegatable is the caller
flag conjoined with the JavaScript truthiness of the delegate, and
script is present exactly when code is. -/
def sendOriginationOperationOrigination (O : NodeOracle) (keyStore : KeyStore)
    (amount : Nat) (delegate : Option String) (spendable delegatable : Bool)
    (fee storage_limit gas_limit : Nat)
    (code : Option String) (storage : Option String) : Operation :=
  let counter := O.counterForAccount keyStore.publicKeyHash + 1
  { kind := "origination"
    source := keyStore.publicKeyHash
    fee := toString fee
    counter := toString counter
    gas_limit := toString gas_limit
    storage_limit := toString storage_limit
    manager_pubkey := some keyStore.publicKeyHash
    balance := some (toString amount)
    spendable := some spendable
    delegatable := some (delegatable && jsTruthyString delegate)
    delegate := delegate
    script := match code with
      | some c => some { code := c, storage := storage }
      | none => none }

/-- The operation list assembled by sendOriginationOperation before
submission. -/
def sendOriginationOperationOps (O : NodeOracle) (keyStore : KeyStore)
    (amount : Nat) (delegate : Option String) (spendable delegatable : Bool)
    (fee storage_limit gas_limit : Nat)
    (code : Option String) (storage : Option String) : List Operation :=
  let counter := O.counterForAccount keyStore.publicKeyHash + 1
  appendRevealOperation O keyStore keyStore.publicKeyHash (counter - 1)
    [sendOriginationOperationOrigination O keyStore amount delegate spendable delegatable
      fee storage_limit gas_limit code storage]

/-- Translation of TezosNodeWriter.sendOriginationOperation. -/
def sendOriginationOperation (O : NodeOracle) (C : Codec) (B : CryptoBackend)
    (keyStore : KeyStore) (amount : Nat) (delegate : Option String)
    (spendable delegatable : Bool) (fee : Nat) (derivationPath : String)
    (storage_limit gas_limit : Nat)
    (code : Option String) (storage : Option String) :
    Except String OperationResult × List NetEvent :=
  sendOperation O C B
    (sendOriginationOperationOps O keyStore amount delegate spendable delegatable
      fee storage_limit gas_limit code storage)
    keyStore derivationPath

/-- Translation of the transaction record built by
TezosNodeWriter.sendContractInvocationOperation, including the
parameter normalization branch. -/
def sendContractInvocationOperationTx (O : NodeOracle) (L : LanguageUtil)
    (keyStore : KeyStore) (toAddress : String) (amount fee storageLimit gasLimit : Nat)
    (parameters : Option String) (parameterFormat : TezosParameterFormat) : Operation :=
  let counter := O.counterForAccount keyStore.publicKeyHash + 1
  let transaction : Operation :=
    { kind := "transaction"
      destination := some toAddress
      amount := some (toString amount)
      storage_limit := toString storageLimit
      gas_limit := toString gasLimit
      counter := toString counter
      fee := toString fee
      source := keyStore.publicKeyHash }
  match parameters with
  | some p =>
    if jsTruthyString (some p) = true ∧ 0 < p.trim.length then
      match parameterFormat with
      | TezosParameterFormat.Michelson =>
        { transaction with parameters := some (L.translateMichelsonToMicheline p) }
      | TezosParameterFormat.Micheline =>
        { transaction with parameters := some p }
    else transaction
  | none => transaction

/-- The operation list assembled by sendContractInvocationOperation
before submission. -/
def sendContractInvocationOperationOps (O : NodeOracle) (L : LanguageUtil)
    (keyStore : KeyStore) (toAddress : String) (amount fee storageLimit gasLimit : Nat)
    (parameters : Option String) (parameterFormat : TezosParameterFormat) : List Operation :=
  let counter := O.counterForAccount keyStore.publicKeyHash + 1
  appendRevealOperation O keyStore keyStore.publicKeyHash (counter - 1)
    [sendContractInvocationOperationTx O L keyStore toAddress amount fee storageLimit gasLimit
      parameters parameterFormat]

/-- Translation of TezosNodeWriter.sendContractInvocationOperation. -/
def sendContractInvocationOperation (O : NodeOracle) (C : Codec) (B : CryptoBackend)
    (L : LanguageUtil) (keyStore : KeyStore) (toAddress : String)
    (amount fee : Nat) (derivationPath : String) (storageLimit gasLimit : Nat)
    (parameters : Option String) (parameterFormat : TezosParameterFormat) :
    Except String OperationResult × List NetEvent :=
  sendOperation O C B
    (sendContractInvocationOperationOps O L keyStore toAddress amount fee storageLimit gasLimit
      parameters parameterFormat)
    keyStore derivationPath

/-- Translation of the reveal record built by
TezosNodeWriter.sendKeyRevealOperation. -/
def sendKeyRevealOperationReveal (O : NodeOracle) (keyStore : KeyStore)
    (fee : Nat) : Operation :=
  let counter := O.counterForAccount keyStore.publicKeyHash + 1
  { kind := "reveal"
    source := keyStore.publicKeyHash
    fee := toString fee
    counter := toString counter
    gas_limit := "10000"
    storage_limit := "0"
    public_key := some keyStore.publicKey }

/-- Translation of TezosNodeWriter.sendKeyRevealOperation: a reveal is
sent directly, without the reveal bundler. -/
def sendKeyRevealOperation (O : NodeOracle) (C : Codec) (B : CryptoBackend)
    (keyStore : KeyStore) (fee : Nat) (derivationPath : String) :
    Except String OperationResult × List NetEvent :=
  sendOperation O C B [sendKeyRevealOperationReveal O keyStore fee] keyStore derivationPath

/-- Shared test fixture: identity language translator. -/
def testLanguageUtil : LanguageUtil :=
  { translateMichelsonToMicheline := fun s => s }

/-- C7: each public send builder computes the counter of the operation
it constructs freshly from the oracle on that call, as the
chain-reported account counter plus one rendered as a decimal string;
in particular, with chain counter 5 and a revealed key, the
transaction path submits exactly the single transaction, no reveal
prepended, with counter 6. -/
theorem sendOperations_fresh_counter (O : NodeOracle) (L : LanguageUtil)
    (keyStore : KeyStore) (toAddress delegator : String) (delegate : Option String)
    (amount fee storageLimit gasLimit storage_limit gas_limit : Nat)
    (spendable delegatable : Bool) (code storage : Option String)
    (parameters : Option String) (parameterFormat : TezosParameterFormat) :
    (sendTransactionOperationTx O keyStore toAddress amount fee).counter =
      toString (O.counterForAccount keyStore.publicKeyHash + 1) ∧
    (sendDelegationOperationDelegation O delegator delegate fee).counter =
      toString (O.counterForAccount delegator + 1) ∧
    (sendOriginationOperationOrigination O keyStore amount delegate spendable delegatable
      fee storage_limit gas_limit code storage).counter =
      toString (O.counterForAccount keyStore.publicKeyHash + 1) ∧
    (sendContractInvocationOperationTx O L keyStore toAddress amount fee storageLimit gasLimit
      parameters parameterFormat).counter =
      toString (O.counterForAccount keyStore.publicKeyHash + 1) ∧
    (sendKeyRevealOperationReveal O keyStore fee).counter =
      toString (O.counterForAccount keyStore.publicKeyHash + 1) ∧
    (O.counterForAccount keyStore.publicKeyHash = 5 →
      O.isManagerKeyRevealedForAccount keyStore.publicKeyHash = true →
      sendTransactionOperationOps O keyStore toAddress amount fee =
        [sendTransactionOperationTx O keyStore toAddress amount fee] ∧
      (sendTransactionOperationTx O keyStore toAddress amount fee).counter = "6" ∧
      (sendTransactionOperationTx O keyStore toAddress amount fee).kind = "transaction") := by
  refine ⟨rfl, rfl, rfl, ?_, rfl, ?_⟩
  · cases parameters with
    | none => rfl
    | some p =>
      by_cases hcond : jsTruthyString (some p) = true ∧ 0 < p.trim.length
      · cases parameterFormat <;>
          simp [sendContractInvocationOperationTx, hcond]
      · simp [sendContractInvocationOperationTx, hcond]
  · intro h5 hrev
    refine ⟨?_, ?_, rfl⟩
    · simp [sendTransactionOperationOps, appendRevealOperation, hrev]
    · have hco : (sendTransactionOperationTx O keyStore toAddress amount fee).counter =
          toString (O.counterForAccount keyStore.publicKeyHash + 1) := rfl
      rw [hco, h5]
      rfl

/-- Witness for C7: the revealed-key counter-5 scenario at concrete
inputs. -/
theorem sendOperations_fresh_counter_witness :
    sendTransactionOperationOps oracleRevealed testKeyStore "tz1dest" 10000000 100000 =
      [sendTransactionOperationTx oracleRevealed testKeyStore "tz1dest" 10000000 100000] ∧
    (sendTransactionOperationTx oracleRevealed testKeyStore "tz1dest" 10000000 100000).counter
      = "6" ∧
    (sendTransactionOperationTx oracleRevealed testKeyStore "tz1dest" 10000000 100000).kind
      = "transaction" :=
  (sendOperations_fresh_counter oracleRevealed testLanguageUtil testKeyStore "tz1dest" "tz1del"
    none 10000000 100000 0 0 0 0 false false none none none
    TezosParameterFormat.Micheline).2.2.2.2.2 rfl rfl

/-- C9: in the origination builder, the delegatable field is the
caller flag conjoined with the JavaScript truthiness of the delegate,
so an absent or empty delegate forces delegatable to false regardless
of the flag, while spendable is passed through unchanged. -/
theorem sendOriginationOperation_delegatable (O : NodeOracle) (keyStore : KeyStore)
    (amount : Nat) (delegate : Option String) (spendable delegatable : Bool)
    (fee storage_limit gas_limit : Nat) (code storage : Option String) :
    (sendOriginationOperationOrigination O keyStore amount delegate spendable delegatable
      fee storage_limit gas_limit code storage).delegatable =
        some (delegatable && jsTruthyString delegate) ∧
    ((delegate = none ∨ delegate = some "") →
      (sendOriginationOperationOrigination O keyStore amount delegate spendable delegatable
        fee storage_limit gas_limit code storage).delegatable = some false) ∧
    (sendOriginationOperationOrigination O keyStore amount delegate spendable delegatable
      fee storage_limit gas_limit code storage).spendable = some spendable := by
  refine ⟨rfl, ?_, rfl⟩
  intro hd
  rcases hd with rfl | rfl
  · simp [sendOriginationOperationOrigination, jsTruthyString]
  · simp [sendOriginationOperationOrigination, jsTruthyString]

/-- Witness for C9: an absent delegate with the delegatable flag set
still yields delegatable false. -/
theorem sendOriginationOperation_delegatable_witness :
    (sendOriginationOperationOrigination oracleRevealed testKeyStore 10000000 none true true
      100000 277 10160 none none).delegatable = some false :=
  (sendOriginationOperation_delegatable oracleRevealed testKeyStore 10000000 none true true
    100000 277 10160 none none).2.1 (Or.inl rfl)

/-- C10: the delegation built by sendDelegationOperation carries equal
gas and storage limits, both rendered from the default delegation
storage limit constant; the equality also holds for the delegation
inside the bundled operation list, whether or not a reveal is
prepended. -/
theorem sendDelegationOperation_gas_eq_storage (O : NodeOracle) (keyStore : KeyStore)
    (delegator : String) (delegate : Option String) (fee : Nat) :
    (sendDelegationOperationDelegation O delegator delegate fee).gas_limit =
      (sendDelegationOperationDelegation O delegator delegate fee).storage_limit ∧
    (sendDelegationOperationDelegation O delegator delegate fee).gas_limit =
      toString TezosConstants.DefaultDelegationStorageLimit ∧
    (∀ op ∈ sendDelegationOperationOps O keyStore delegator delegate fee,
      op.kind = "delegation" → op.gas_limit = op.storage_limit) := by
  refine ⟨rfl, rfl, ?_⟩
  intro op hop hkind
  by_cases hrev : O.isManagerKeyRevealedForAccount delegator = true
  · simp [sendDelegationOperationOps, appendRevealOperation, hrev] at hop
    subst hop
    rfl
  · have hrev' : O.isManagerKeyRevealedForAccount delegator = false := by simpa using hrev
    simp [sendDelegationOperationOps, appendRevealOperation, hrev', renumberFrom] at hop
    rcases hop with rfl | rfl
    · have h2 : ("reveal" : String) = "delegation" := hkind
      exact absurd h2 (by decide)
    · rfl

/-- Witness for C10 at a concrete unrevealed delegator. -/
theorem sendDelegationOperation_gas_eq_storage_witness :
    (sendDelegationOperationDelegation oracleUnrevealed "tz1del" (some "tz3bak") 300000).gas_limit
      = (sendDelegationOperationDelegation oracleUnrevealed "tz1del" (some "tz3bak")
          300000).storage_limit :=
  (sendDelegationOperation_gas_eq_storage oracleUnrevealed testKeyStore "tz1del"
    (some "tz3bak") 300000).1

/-- Shared test fixture: client transaction for the remote-forge
scenario. -/
def c2Client : Operation :=
  { kind := "transaction", source := "tz1src", fee := "100000", counter := "7",
    gas_limit := "10300", storage_limit := "300",
    amount := some "10000000", destination := some "tz1dest" }

/-- Shared test fixture: decoded transaction whose amount differs
from the client intent. -/
def c2Decoded : Operation := { c2Client with amount := some "99" }

/-- Shared test fixture: oracle whose forge endpoint returns a quoted
hex string. -/
def c2Oracle : NodeOracle :=
  { oracleRevealed with forgeText := fun _ _ => "\"deadbeef\"\n" }

/-- Shared test fixture: codec decoding the remote response to the
mismatching transaction. -/
def c2Codec : Codec :=
  { testCodec with parseOperationGroup := fun _ => [c2Decoded] }

/-- C2, failing-input evaluation: for a transaction list, the for-in
loop of forgeOperationsRemotely tests array index strings, never kind
names, so the validate flag stays false and the call returns the
cleaned hex without running the comparison, even though the
comparison loop itself would have rejected the mismatched amount. -/
theorem forgeOperationsRemotely_validation_skipped :
    forInValidate (List.map (fun o => o.kind) [c2Client]) = false ∧
    validateForged [c2Client] [c2Decoded] =
      Except.error "Forged transaction failed validation." ∧
    forgeOperationsRemotely c2Oracle c2Codec testBlockHead [c2Client] =
      Except.ok "deadbeef" := by
  refine ⟨rfl, rfl, rfl⟩

/-- Shared test fixture: oracle whose preapply endpoint returns an
unparseable body. -/
def c8Oracle : NodeOracle :=
  { oracleRevealed with preapplyText := fun _ => "nonsense", parseJSON := fun _ => none }

/-- Shared test fixture: like c8Oracle but parsing succeeds. -/
def c8OkOracle : NodeOracle :=
  { c8Oracle with parseJSON := fun _ => some [testAppliedOk] }

/-- The parse failure message produced at the c8Oracle scenario. -/
def c8Msg : String :=
  "Could not parse JSON response from chains/main/blocks/head/helpers/preapply/operation: "
    ++ jsSingleQuote ++ "nonsense" ++ jsSingleQuote ++ " for [object Object]"

set_option maxRecDepth 8192 in
/-- C8, failing-input evaluation: on a parse failure, applyOperation
fails with a message that contains the raw response body but not the
contents of the request payload, because the source interpolates the
payload array with the default JavaScript object rendering; here
neither the branch nor the signature of the payload occurs in the
message. On parse success the parsed array is returned unchanged. -/
theorem applyOperation_parse_error_payload_missing :
    (applyOperation c8Oracle "BRANCHHASH" "protoX" [testTx] ⟨[], "sigX"⟩).1 =
      Except.error c8Msg ∧
    "nonsense".data <:+: c8Msg.data ∧
    ¬ "BRANCHHASH".data <:+: c8Msg.data ∧
    ¬ "sigX".data <:+: c8Msg.data ∧
    (applyOperation c8OkOracle "BRANCHHASH" "protoX" [testTx] ⟨[], "sigX"⟩).1 =
      Except.ok [testAppliedOk] := by
  refine ⟨rfl, ?_, ?_, ?_, rfl⟩ <;> decide
